import Mathlib

/-!
Verification development for the polyglot-studio live-preview bridge.

The definitions below are a shallow embedding of the preview sandbox
bridge of this repository: the document composer `generatePreviewContent`
and the console-instrumentation script it injects
(`src/src/components/PreviewPanel.tsx`), the host-side message handler
`handleMessage` (same file, lines 116-131), and the host operations of
`src/src/App.tsx` that touch the console-log sequence.
-/

namespace Polyglot

/-! ### JavaScript runtime values

A small model of the JavaScript values that flow through the
instrumentation script: strings, numbers (modelled as integers, which
covers every value the claims exercise), booleans, `undefined`, `null`,
and plain objects as association lists. -/

inductive JSValue where
  | str (s : String)
  | num (n : Int)
  | bool (b : Bool)
  | undefined
  | null
  | obj (fields : List (String × JSValue))

/-- The JavaScript `typeof` operator on the modelled values
(`typeof null` is famously "object"). -/
def typeof : JSValue → String
  | .str _ => "string"
  | .num _ => "number"
  | .bool _ => "boolean"
  | .undefined => "undefined"
  | .null => "object"
  | .obj _ => "object"

/-- JavaScript property access `v[k]`: looks a key up in an object,
yields `undefined` for a missing key and for non-object primitives.
(Property access on `null`/`undefined` throws in JavaScript; no claim
exercises that corner and the model returns `undefined` there.) -/
def getProp (v : JSValue) (k : String) : JSValue :=
  match v with
  | .obj fields => (fields.lookup k).getD .undefined
  | _ => .undefined

/-- The JavaScript `String(x)` conversion on the modelled values. -/
def jsStringOf : JSValue → String
  | .str s => s
  | .num n => toString n
  | .bool true => "true"
  | .bool false => "false"
  | .undefined => "undefined"
  | .null => "null"
  | .obj _ => "[object Object]"

/-- JSON string-escaping of a single character, as performed by
`JSON.stringify` on the characters the claims exercise. -/
def jsonEscapeChar (c : Char) : String :=
  if c = '"' then "\\\""
  else if c = '\\' then "\\\\"
  else if c = '\n' then "\\n"
  else if c = '\t' then "\\t"
  else if c = '\r' then "\\r"
  else String.singleton c

/-- JSON string-escaping, character by character. -/
def jsonEscape (s : String) : String :=
  String.join (s.data.map jsonEscapeChar)

/-- Indentation produced by `JSON.stringify(_, null, 2)` at nesting
depth `lvl`: two spaces per level. -/
def pad (lvl : Nat) : String :=
  String.join (List.replicate lvl "  ")

mutual

/-- The serialization `JSON.stringify(v, null, 2)` of a modelled value
at nesting depth `lvl` (object fields never hold `undefined` in any
claim, so the field-skipping `JSON.stringify` performs on `undefined`
members is outside the modelled inputs). -/
def jsonStringify : JSValue → Nat → String
  | .str s, _ => "\"" ++ jsonEscape s ++ "\""
  | .num n, _ => toString n
  | .bool true, _ => "true"
  | .bool false, _ => "false"
  | .null, _ => "null"
  | .undefined, _ => "undefined"
  | .obj [], _ => "\x7b\x7d"
  | .obj (f :: fs), lvl =>
      "\x7b\n" ++ String.intercalate ",\n" (jsonFields (f :: fs) (lvl + 1))
        ++ "\n" ++ pad lvl ++ "\x7d"

/-- One `"key": value` line per object field, indented at depth `lvl`. -/
def jsonFields : List (String × JSValue) → Nat → List String
  | [], _ => []
  | (k, v) :: fs, lvl =>
      (pad lvl ++ "\"" ++ jsonEscape k ++ "\": " ++ jsonStringify v lvl)
        :: jsonFields fs lvl

end

/-- The per-argument stringification of the injected console shadows
(PreviewPanel.tsx lines 62-63):
`typeof arg === 'object' ? JSON.stringify(arg, null, 2) : String(arg)`. -/
def stringifyArg (arg : JSValue) : String :=
  if typeof arg == "object" then jsonStringify arg 0 else jsStringOf arg

/-- The argument list joined with single spaces, as in
`args.map(...).join(' ')` inside each console shadow. -/
def joinArgs (args : List JSValue) : String :=
  String.intercalate " " (args.map stringifyArg)

/-! ### The relayed message and the console shadows -/

/-- The object posted by `sendToParent` (PreviewPanel.tsx lines 51-58):
`postMessage(\x7b type: 'console', level: type, message: message,
timestamp: ... \x7d, '*')`.  The `message` field is kept as a `JSValue`
because the guarded catch block can pass a non-string there. -/
structure RelayMessage where
  type : String
  level : String
  message : JSValue
  timestamp : String

/-- The `sendToParent` helper of the instrumentation script: builds the
posted payload, with `type` pinned to `'console'`. -/
def sendToParent (level : String) (message : JSValue) (timestamp : String) :
    RelayMessage :=
  ⟨"console", level, message, timestamp⟩

/-- Shadowed `console.log` (PreviewPanel.tsx lines 60-65): calls the
original implementation, then relays exactly one message. The model
keeps only the relay side effect, returned as the list of messages
emitted by the call. -/
def consoleLogShadow (args : List JSValue) (ts : String) : List RelayMessage :=
  [sendToParent "log" (.str (joinArgs args)) ts]

/-- Shadowed `console.error` (PreviewPanel.tsx lines 67-72). -/
def consoleErrorShadow (args : List JSValue) (ts : String) : List RelayMessage :=
  [sendToParent "error" (.str (joinArgs args)) ts]

/-- Shadowed `console.warn` (PreviewPanel.tsx lines 74-79). -/
def consoleWarnShadow (args : List JSValue) (ts : String) : List RelayMessage :=
  [sendToParent "warn" (.str (joinArgs args)) ts]

/-- Shadowed `console.info` (PreviewPanel.tsx lines 81-86). -/
def consoleInfoShadow (args : List JSValue) (ts : String) : List RelayMessage :=
  [sendToParent "info" (.str (joinArgs args)) ts]

/-! ### The guarded execution block -/

/-- Outcome of evaluating the user's JavaScript inside the `try` block:
either it runs to completion having emitted some relayed messages, or it
synchronously throws a value after emitting some messages. -/
inductive ScriptOutcome where
  | normal (events : List RelayMessage)
  | thrown (events : List RelayMessage) (exn : JSValue)

/-- The guarded block of the composed document (PreviewPanel.tsx lines
93-97): `try ... catch (error) \x7b sendToParent('error', error.message);
\x7d`. A synchronous throw is caught and relayed as one error-level
message carrying the thrown value's `message` property; the messages
already emitted are unaffected. -/
def runGuarded (outcome : ScriptOutcome) (ts : String) : List RelayMessage :=
  match outcome with
  | .normal events => events
  | .thrown events exn => events ++ [sendToParent "error" (getProp exn "message") ts]

/-- A JavaScript `new Error(msg)` instance, as far as the guarded block
observes it: an object whose `message` property holds `msg`. -/
def newError (msg : String) : JSValue :=
  .obj [("message", .str msg)]

/-! ### The composed document

The template literal of `generatePreviewContent` (PreviewPanel.tsx lines
22-100), split at its three splice points `$\x7bcss\x7d`, `$\x7bhtml\x7d`
and `$\x7bjavascript\x7d` into fixed boilerplate segments.  Every segment
is transcribed character-for-character from the source (including
trailing spaces); the instrumentation script is further split into the
contiguous blocks it is made of. -/

/-- Boilerplate from the start of the template up to the CSS splice
point: doctype, meta tags, and the opened `<style>` block holding the
baseline stylesheet. -/
def tplHead : String :=
  "\n<!DOCTYPE html>"
    ++ "\n<html lang=\"en\">"
    ++ "\n<head>"
    ++ "\n    <meta charset=\"UTF-8\">"
    ++ "\n    <meta name=\"viewport\" content=\"width=device-width, initial-scale=1.0\">"
    ++ "\n    <title>Preview</title>"
    ++ "\n    <style>"
    ++ "\n        body \x7b "
    ++ "\n            margin: 0; "
    ++ "\n            padding: 16px; "
    ++ "\n            font-family: -apple-system, BlinkMacSystemFont, 'Segoe UI', Roboto, sans-serif;"
    ++ "\n            background: white;"
    ++ "\n            color: #333;"
    ++ "\n        \x7d"
    ++ "\n        "

/-- Boilerplate between the CSS splice point and the HTML splice point:
closes the style block, opens the body. -/
def tplAfterCss : String :=
  "\n    </style>"
    ++ "\n</head>"
    ++ "\n<body>"
    ++ "\n    "

/-- Opening of the instrumentation script. -/
def scriptOpen : String :=
  "\n    <script>"
    ++ "\n        // Intercept console methods"
    ++ "\n"

/-- Declaration capturing the original console methods. -/
def originalConsoleDecl : String :=
  "        const originalConsole = \x7b\n"
    ++ "            log: console.log,\n"
    ++ "            error: console.error,\n"
    ++ "            warn: console.warn,\n"
    ++ "            info: console.info\n"
    ++ "        \x7d;\n"
    ++ "        \n"

/-- Declaration of the `sendToParent` relay helper. -/
def sendToParentDecl : String :=
  "        const sendToParent = (type, message) => \x7b\n"
    ++ "            window.parent.postMessage(\x7b\n"
    ++ "                type: 'console',\n"
    ++ "                level: type,\n"
    ++ "                message: message,\n"
    ++ "                timestamp: new Date().toISOString()\n"
    ++ "            \x7d, '*');\n"
    ++ "        \x7d;\n"
    ++ "        \n"

/-- The `console.log` shadowing block. -/
def consoleLogBlock : String :=
  "        console.log = (...args) => \x7b\n"
    ++ "            originalConsole.log(...args);\n"
    ++ "            sendToParent('log', args.map(arg => \n"
    ++ "                typeof arg === 'object' ? JSON.stringify(arg, null, 2) : String(arg)\n"
    ++ "            ).join(' '));\n"
    ++ "        \x7d;\n"
    ++ "        \n"

/-- The `console.error` shadowing block. -/
def consoleErrorBlock : String :=
  "        console.error = (...args) => \x7b\n"
    ++ "            originalConsole.error(...args);\n"
    ++ "            sendToParent('error', args.map(arg => \n"
    ++ "                typeof arg === 'object' ? JSON.stringify(arg, null, 2) : String(arg)\n"
    ++ "            ).join(' '));\n"
    ++ "        \x7d;\n"
    ++ "        \n"

/-- The `console.warn` shadowing block. -/
def consoleWarnBlock : String :=
  "        console.warn = (...args) => \x7b\n"
    ++ "            originalConsole.warn(...args);\n"
    ++ "            sendToParent('warn', args.map(arg => \n"
    ++ "                typeof arg === 'object' ? JSON.stringify(arg, null, 2) : String(arg)\n"
    ++ "            ).join(' '));\n"
    ++ "        \x7d;\n"
    ++ "        \n"

/-- The `console.info` shadowing block. -/
def consoleInfoBlock : String :=
  "        console.info = (...args) => \x7b\n"
    ++ "            originalConsole.info(...args);\n"
    ++ "            sendToParent('info', args.map(arg => \n"
    ++ "                typeof arg === 'object' ? JSON.stringify(arg, null, 2) : String(arg)\n"
    ++ "            ).join(' '));\n"
    ++ "        \x7d;\n"
    ++ "        \n"

/-- The global uncaught-error listener block. -/
def errorListenerBlock : String :=
  "        // Catch runtime errors\n"
    ++ "        window.addEventListener('error', (e) => \x7b\n"
    ++ "            sendToParent('error', `$\x7be.message\x7d at $\x7be.filename\x7d:$\x7be.lineno\x7d`);\n"
    ++ "        \x7d);\n"
    ++ "        \n"

/-- Opening of the guarded block, up to the JavaScript splice point. -/
def tryOpen : String :=
  "        try \x7b\n"
    ++ "            "

/-- Boilerplate between the HTML splice point and the JavaScript splice
point: the whole instrumentation script down to the opened `try`. -/
def tplAfterHtml : String :=
  scriptOpen ++ originalConsoleDecl ++ sendToParentDecl ++ consoleLogBlock
    ++ consoleErrorBlock ++ consoleWarnBlock ++ consoleInfoBlock
    ++ errorListenerBlock ++ tryOpen

/-- Boilerplate after the JavaScript splice point: the catch clause and
the closing tags. -/
def tplTail : String :=
  "\n        \x7d catch (error) \x7b"
    ++ "\n            sendToParent('error', error.message);"
    ++ "\n        \x7d"
    ++ "\n    </script>"
    ++ "\n</body>"
    ++ "\n</html>"

/-- The document composer (PreviewPanel.tsx lines 21-101): splices the
three user buffers into the fixed template. -/
def generatePreviewContent (html css javascript : String) : String :=
  tplHead ++ css ++ tplAfterCss ++ html ++ tplAfterHtml ++ javascript ++ tplTail

/-- The `sandbox` attribute the preview iframe is rendered with
(PreviewPanel.tsx line 172). -/
def previewSandboxAttribute : String :=
  "allow-scripts allow-same-origin"

/-! ### Substring occurrence, used to state facts about the template -/

/-- Whether `pat` occurs as a contiguous sublist. -/
def subOccurs (pat : List Char) : List Char → Bool
  | [] => List.isPrefixOf pat []
  | c :: t => List.isPrefixOf pat (c :: t) || subOccurs pat t

/-- Whether the string `pat` occurs as a contiguous substring of `s`. -/
def strHas (s pat : String) : Bool :=
  subOccurs pat.data s.data

/-! ### Host side: the console-log sequence -/

/-- The host's `ConsoleLog` record (`src/src/types/index.ts`).  The
TypeScript interface declares `type`, `message` and `timestamp` as
strings, but `handleMessage` copies them from the incoming payload
without validation, so at runtime they hold arbitrary values; the model
therefore keeps them as `JSValue`.  The `id` is minted by the host. -/
structure ConsoleLog where
  id : String
  type : JSValue
  message : JSValue
  timestamp : JSValue

/-- The strict-equality check `event.data.type === 'console'` performed
by the host listener (PreviewPanel.tsx line 118). -/
def isConsoleTag (v : JSValue) : Bool :=
  match v with
  | .str s => s == "console"
  | _ => false

/-- The host's message listener combined with the append it triggers:
`handleMessage` (PreviewPanel.tsx lines 116-131) wraps the payload into
a `ConsoleLog` — `id` minted as `Date.now().toString()`, modelled as
`Nat.repr now` of the receipt-time clock parameter `now`; `type`,
`message`, `timestamp` copied from the payload — and `onConsoleLog`
(`handleConsoleLog`, App.tsx lines 206-208) appends it to the sequence.
A payload whose `type` field is not the string `'console'` leaves the
sequence unchanged. -/
def handleMessage (data : JSValue) (now : Nat) (logs : List ConsoleLog) :
    List ConsoleLog :=
  if isConsoleTag (getProp data "type") then
    logs ++ [⟨Nat.repr now, getProp data "level", getProp data "message",
              getProp data "timestamp"⟩]
  else logs

/-- Following the spec's words (§4.3, "Message shape"), for comparison
with the code's check: the payload matches the full relay shape when its
tag field equals `"console"` (the spec names this field `channel`; the
code's key for it is `type`), its `level` is one of the four log-level
strings, and its `message` and `timestamp` are strings. -/
def matchesRelayShape (d : JSValue) : Bool :=
  isConsoleTag (getProp d "type")
    && (match getProp d "level" with
        | .str l => (["log", "warn", "error", "info"] : List String).contains l
        | _ => false)
    && (match getProp d "message" with
        | .str _ => true
        | _ => false)
    && (match getProp d "timestamp" with
        | .str _ => true
        | _ => false)

/-- The host operations of App.tsx that touch the console-log sequence
(everything else leaves it alone, captured by `otherUiAction`). -/
inductive HostAction where
  | receiveMessage (data : JSValue) (now : Nat)
  | clearConsole
  | runCommand
  | loadSnippet
  | loadCodeFile
  | resetCode
  | otherUiAction

/-- Effect of each host operation on the console-log sequence:
`receiveMessage` is the listener plus append; `clearConsole` is
`clearConsoleLogs` (App.tsx lines 210-212, also invoked by the terminal
`clear` command); `runCommand` is the `run` branch of `handleCommand`
(line 219); `loadSnippet` (line 304), `loadCodeFile` (line 323) and
`resetCode` (line 343) each call `setConsoleLogs([])` alongside their
buffer updates. -/
def applyHostAction : HostAction → List ConsoleLog → List ConsoleLog
  | .receiveMessage data now, logs => handleMessage data now logs
  | .clearConsole, _ => []
  | .runCommand, _ => []
  | .loadSnippet, _ => []
  | .loadCodeFile, _ => []
  | .resetCode, _ => []
  | .otherUiAction, logs => logs

/-- A user-edited source bundle: the three buffers held by the host
(`html`, `css`, `javascript` state of App.tsx). -/
structure SourceBundle where
  html : String
  css : String
  javascript : String

/-- Composition of the preview document from a bundle, as the preview
panel does with its three props. -/
def composeDocument (b : SourceBundle) : String :=
  generatePreviewContent b.html b.css b.javascript

/-! ### Decimal rendering of the receipt clock

`Date.now().toString()` is modelled as `Nat.repr`.  The claims about id
uniqueness need that distinct clock values render to distinct strings,
i.e. that `Nat.repr` is injective; this is proved here from the
fuel-based core implementation `Nat.toDigitsCore`. -/

/-- Numeric value of a decimal digit character. -/
def digitVal (c : Char) : Nat :=
  c.toNat - 48

theorem digitVal_digitChar (d : Nat) (hd : d < 10) :
    digitVal (Nat.digitChar d) = d := by
  interval_cases d <;> rfl

/-- Reads a digit string back into the number it denotes, most
significant digit first, on top of an accumulator. -/
def decodeDigits (acc : Nat) : List Char → Nat
  | [] => acc
  | c :: cs => decodeDigits (acc * 10 + digitVal c) cs

theorem decodeDigits_nil (acc : Nat) : decodeDigits acc [] = acc := rfl

theorem decodeDigits_cons (acc : Nat) (c : Char) (cs : List Char) :
    decodeDigits acc (c :: cs) = decodeDigits (acc * 10 + digitVal c) cs := rfl

theorem decodeDigits_append (l1 l2 : List Char) :
    ∀ acc, decodeDigits acc (l1 ++ l2) = decodeDigits (decodeDigits acc l1) l2 := by
  induction l1 with
  | nil => intro acc; rfl
  | cons c cs ih => intro acc; exact ih (acc * 10 + digitVal c)

theorem toDigitsCore_append :
    ∀ (f n : Nat) (ds : List Char),
      Nat.toDigitsCore 10 f n ds = Nat.toDigitsCore 10 f n [] ++ ds := by
  intro f
  induction f with
  | zero => intro n ds; simp [Nat.toDigitsCore]
  | succ f ih =>
    intro n ds
    simp only [Nat.toDigitsCore]
    by_cases h : n / 10 = 0
    · simp only [if_pos h]
      simp
    · simp only [if_neg h]
      rw [ih (n / 10) (Nat.digitChar (n % 10) :: ds),
          ih (n / 10) [Nat.digitChar (n % 10)]]
      simp

theorem toDigitsCore_fuel :
    ∀ (f g n : Nat), n < f → n < g →
      Nat.toDigitsCore 10 f n [] = Nat.toDigitsCore 10 g n [] := by
  intro f
  induction f with
  | zero => intro g n h _; exact absurd h (Nat.not_lt_zero n)
  | succ f ih =>
    intro g n hf hg
    obtain ⟨g', rfl⟩ : ∃ g', g = g' + 1 := ⟨g - 1, by omega⟩
    simp only [Nat.toDigitsCore]
    by_cases h : n / 10 = 0
    · simp only [if_pos h]
    · simp only [if_neg h]
      rw [toDigitsCore_append f (n / 10) [Nat.digitChar (n % 10)],
          toDigitsCore_append g' (n / 10) [Nat.digitChar (n % 10)]]
      rw [ih g' (n / 10) (by omega) (by omega)]

/-- The digit string of `n`, most significant digit first. -/
def natDigits (n : Nat) : List Char :=
  Nat.toDigits 10 n

theorem natDigits_small (n : Nat) (h : n < 10) :
    natDigits n = [Nat.digitChar n] := by
  have h0 : n / 10 = 0 := by omega
  have h1 : n % 10 = n := by omega
  show Nat.toDigitsCore 10 (n + 1) n [] = _
  simp only [Nat.toDigitsCore, if_pos h0, h1]

theorem natDigits_step (n : Nat) (h : 10 ≤ n) :
    natDigits n = natDigits (n / 10) ++ [Nat.digitChar (n % 10)] := by
  have h0 : ¬ n / 10 = 0 := by omega
  show Nat.toDigitsCore 10 (n + 1) n [] = _
  simp only [Nat.toDigitsCore, if_neg h0]
  rw [toDigitsCore_append n (n / 10) [Nat.digitChar (n % 10)]]
  rw [toDigitsCore_fuel n (n / 10 + 1) (n / 10) (by omega) (by omega)]
  rfl

theorem decode_natDigits (n : Nat) :
    ∀ acc, decodeDigits acc (natDigits n) = acc * 10 ^ (natDigits n).length + n := by
  induction n using Nat.strong_induction_on with
  | _ n ih =>
    intro acc
    by_cases h : n < 10
    · rw [natDigits_small n h, decodeDigits_cons, decodeDigits_nil,
          digitVal_digitChar n h]
      simp
    · push_neg at h
      have hn : n / 10 < n := by omega
      have hdm : 10 * (n / 10) + n % 10 = n := Nat.div_add_mod n 10
      have hmod : digitVal (Nat.digitChar (n % 10)) = n % 10 :=
        digitVal_digitChar (n % 10) (by omega)
      rw [natDigits_step n h, decodeDigits_append]
      rw [ih (n / 10) hn acc]
      rw [decodeDigits_cons, decodeDigits_nil, hmod]
      simp only [List.length_append, List.length_cons, List.length_nil,
                 Nat.zero_add]
      rw [pow_succ]
      calc (acc * 10 ^ (natDigits (n / 10)).length + n / 10) * 10 + n % 10
          = acc * (10 ^ (natDigits (n / 10)).length * 10)
              + (10 * (n / 10) + n % 10) := by ring
        _ = acc * (10 ^ (natDigits (n / 10)).length * 10) + n := by rw [hdm]

theorem natRepr_inj (m n : Nat) (h : Nat.repr m = Nat.repr n) : m = n := by
  have h2 : natDigits m = natDigits n := congrArg String.data h
  have h3 := congrArg (decodeDigits 0) h2
  rw [decode_natDigits m 0, decode_natDigits n 0] at h3
  simpa using h3

/-- Appending one record always changes the sequence. -/
theorem append_singleton_ne (logs : List ConsoleLog) (r : ConsoleLog) :
    logs ++ [r] ≠ logs := by
  intro h
  have := congrArg List.length h
  simp at this

set_option maxRecDepth 100000

/-! ### The claims -/

/-- Claim C1: the spec asserts the iframe hosting the preview never
carries a sandbox attribute granting same-origin capability.  The code
contradicts this: the rendered sandbox attribute is exactly
`allow-scripts allow-same-origin`, which does contain the
`allow-same-origin` flag. -/
theorem claim_C1_sandbox_grants_same_origin :
    strHas previewSandboxAttribute "allow-same-origin" = true
    ∧ previewSandboxAttribute = "allow-scripts allow-same-origin" :=
  ⟨rfl, rfl⟩

/-- Claim C2, counterexample: a payload whose tag field is `'console'`
but whose `level`, `message` and `timestamp` fields are all absent
(hence `undefined`, not matching the full relay shape) is nevertheless
appended to the log sequence. -/
theorem claim_C2_cex :
    handleMessage (JSValue.obj [("type", JSValue.str "console")]) 0 [] ≠ []
    ∧ matchesRelayShape (JSValue.obj [("type", JSValue.str "console")]) = false :=
  ⟨fun hcon => List.noConfusion hcon, rfl⟩

/-- Claim C2, amended: a received payload is appended to the log
sequence if and only if its tag field (`type` in the code, `channel` in
the spec's naming) strictly equals the string `'console'`; the remaining
fields are not validated, and on append they are copied as-is with a
freshly minted id. -/
theorem claim_C2_amended (d : JSValue) (now : Nat) (logs : List ConsoleLog) :
    (handleMessage d now logs ≠ logs ↔ isConsoleTag (getProp d "type") = true)
    ∧ (isConsoleTag (getProp d "type") = true →
        handleMessage d now logs
          = logs ++ [⟨Nat.repr now, getProp d "level", getProp d "message",
                      getProp d "timestamp"⟩]) := by
  by_cases hb : isConsoleTag (getProp d "type") = true
  · refine ⟨⟨fun _ => hb, fun _ => ?_⟩, fun _ => ?_⟩
    · unfold handleMessage
      rw [if_pos hb]
      exact append_singleton_ne logs _
    · unfold handleMessage
      rw [if_pos hb]
  · refine ⟨⟨fun hne => ?_, fun h => absurd h hb⟩, fun h => absurd h hb⟩
    exfalso
    apply hne
    unfold handleMessage
    rw [if_neg hb]

/-- Claim C2, witness for the amended statement: a well-formed payload
received at clock value 7 on an empty sequence is appended with id "7". -/
theorem claim_C2_amended_witness :
    handleMessage
        (JSValue.obj [("type", JSValue.str "console"), ("level", JSValue.str "log"),
                      ("message", JSValue.str "hi"), ("timestamp", JSValue.str "t")])
        7 []
      = [⟨"7", JSValue.str "log", JSValue.str "hi", JSValue.str "t"⟩] :=
  (claim_C2_amended
      (JSValue.obj [("type", JSValue.str "console"), ("level", JSValue.str "log"),
                    ("message", JSValue.str "hi"), ("timestamp", JSValue.str "t")])
      7 []).2 rfl

/-- Claim C3, counterexample: two accepted messages received at the same
clock value (`Date.now()` has millisecond resolution) are both appended
with the same id `"5"`, so ids are not unique across the sequence. -/
theorem claim_C3_cex :
    ¬ (((handleMessage (JSValue.obj [("type", JSValue.str "console")]) 5
            (handleMessage (JSValue.obj [("type", JSValue.str "console")]) 5 [])).map
          ConsoleLog.id).Nodup) := by
  decide

/-- Claim C3, amended: the host mints the id of every appended record
from the receipt-time clock (never from the payload), and records
received at distinct clock values do get distinct ids; only records
received at the same millisecond can share an id. -/
theorem claim_C3_amended :
    (∀ (d : JSValue) (now : Nat) (logs : List ConsoleLog) (r : ConsoleLog),
        r ∈ handleMessage d now logs → r ∈ logs ∨ r.id = Nat.repr now)
    ∧ (∀ n m : Nat, n ≠ m → Nat.repr n ≠ Nat.repr m) := by
  constructor
  · intro d now logs r hr
    unfold handleMessage at hr
    by_cases hb : isConsoleTag (getProp d "type") = true
    · rw [if_pos hb] at hr
      rcases List.mem_append.1 hr with h | h
      · exact Or.inl h
      · right
        have hr2 := List.mem_singleton.1 h
        rw [hr2]
    · rw [if_neg hb] at hr
      exact Or.inl hr
  · intro n m hnm h
    exact hnm (natRepr_inj n m h)

/-- Claim C3, witness for the amended statement: the record appended at
clock value 5 carries id `Nat.repr 5`, and clock values 4 and 5 mint
distinct ids. -/
theorem claim_C3_amended_witness :
    ((⟨Nat.repr 5, JSValue.undefined, JSValue.undefined, JSValue.undefined⟩ : ConsoleLog)
        ∈ ([] : List ConsoleLog)
      ∨ (⟨Nat.repr 5, JSValue.undefined, JSValue.undefined,
          JSValue.undefined⟩ : ConsoleLog).id = Nat.repr 5)
    ∧ Nat.repr 4 ≠ Nat.repr 5 :=
  ⟨claim_C3_amended.1 (JSValue.obj [("type", JSValue.str "console")]) 5 []
      ⟨Nat.repr 5, JSValue.undefined, JSValue.undefined, JSValue.undefined⟩
      (List.Mem.head _),
   claim_C3_amended.2 4 5 (by decide)⟩

/-- Claim C4, counterexample: loading a snippet — an operation distinct
from the explicit clear action — empties a nonempty log sequence, so
records are removed by host operations other than "clear". -/
theorem claim_C4_cex :
    applyHostAction HostAction.loadSnippet
        [⟨"1", JSValue.str "log", JSValue.str "m", JSValue.str "t"⟩] = []
    ∧ HostAction.loadSnippet ≠ HostAction.clearConsole :=
  ⟨rfl, fun h => HostAction.noConfusion h⟩

/-- Claim C4, amended: every host operation either leaves the log
sequence unchanged, appends exactly one record, or erases the whole
sequence to empty — no operation removes a proper nonempty subset.
Besides the explicit clear action, the terminal `run` command, loading a
snippet, loading a code file, and resetting the code also erase the
whole sequence. -/
theorem claim_C4_amended (op : HostAction) (logs : List ConsoleLog) :
    applyHostAction op logs = logs
    ∨ (∃ r, applyHostAction op logs = logs ++ [r])
    ∨ applyHostAction op logs = [] := by
  cases op with
  | receiveMessage d now =>
    by_cases hb : isConsoleTag (getProp d "type") = true
    · right; left
      refine ⟨⟨Nat.repr now, getProp d "level", getProp d "message",
               getProp d "timestamp"⟩, ?_⟩
      show handleMessage d now logs = _
      unfold handleMessage
      rw [if_pos hb]
    · left
      show handleMessage d now logs = logs
      unfold handleMessage
      rw [if_neg hb]
  | clearConsole => right; right; rfl
  | runCommand => right; right; rfl
  | loadSnippet => right; right; rfl
  | loadCodeFile => right; right; rfl
  | resetCode => right; right; rfl
  | otherUiAction => left; rfl

/-- Claim C5: the composer is a pure function of the three bundle
strings — bundles with equal components compose to identical documents,
and nothing else influences the output. -/
theorem claim_C5_composer_deterministic (b1 b2 : SourceBundle)
    (hh : b1.html = b2.html) (hc : b1.css = b2.css)
    (hj : b1.javascript = b2.javascript) :
    composeDocument b1 = composeDocument b2 := by
  unfold composeDocument generatePreviewContent
  rw [hh, hc, hj]

/-- Claim C5, witness: determinism applied to a concrete bundle. -/
theorem claim_C5_witness :
    composeDocument ⟨"<p>hi</p>", "p \x7b color: red \x7d", "f()"⟩
      = composeDocument ⟨"<p>hi</p>", "p \x7b color: red \x7d", "f()"⟩ :=
  claim_C5_composer_deterministic
    ⟨"<p>hi</p>", "p \x7b color: red \x7d", "f()"⟩
    ⟨"<p>hi</p>", "p \x7b color: red \x7d", "f()"⟩ rfl rfl rfl

/-- Claim C6: for every bundle the composed output is the fixed HTML5
template with (1) the user's CSS verbatim inside the `<style>` block,
after a baseline stylesheet (margin reset, default font) and before the
only `</style>`; (2) the user's HTML verbatim right after `<body>`, with
`</body>` only in the tail; (3) shadowing blocks for the four console
methods, each assigning to the global method, calling the original
implementation first and forwarding via `sendToParent` after; and
(4) the user's JavaScript spliced between `try \x7b` and
`\x7d catch (error)`. -/
theorem claim_C6_document_structure (html css javascript : String) :
    generatePreviewContent html css javascript
        = tplHead ++ css ++ tplAfterCss ++ html ++ tplAfterHtml
            ++ javascript ++ tplTail
    ∧ (∃ p q, tplHead = p ++ "<style>" ++ q
        ∧ strHas q "margin: 0" = true
        ∧ strHas q "font-family" = true
        ∧ strHas q "</style>" = false)
    ∧ tplAfterCss = "\n    </style>\n</head>\n<body>\n    "
    ∧ strHas tplTail "</body>" = true
    ∧ strHas tplAfterHtml "</body>" = false
    ∧ (∃ p q, tplAfterHtml = p ++ consoleLogBlock ++ q)
    ∧ (∃ p q, tplAfterHtml = p ++ consoleErrorBlock ++ q)
    ∧ (∃ p q, tplAfterHtml = p ++ consoleWarnBlock ++ q)
    ∧ (∃ p q, tplAfterHtml = p ++ consoleInfoBlock ++ q)
    ∧ (∃ a b c, consoleLogBlock
        = a ++ "originalConsole.log(...args);" ++ b ++ "sendToParent('log'" ++ c)
    ∧ (∃ a b c, consoleErrorBlock
        = a ++ "originalConsole.error(...args);" ++ b ++ "sendToParent('error'" ++ c)
    ∧ (∃ a b c, consoleWarnBlock
        = a ++ "originalConsole.warn(...args);" ++ b ++ "sendToParent('warn'" ++ c)
    ∧ (∃ a b c, consoleInfoBlock
        = a ++ "originalConsole.info(...args);" ++ b ++ "sendToParent('info'" ++ c)
    ∧ (∃ p, tplAfterHtml = p ++ tryOpen)
    ∧ tryOpen = "        try \x7b\n            "
    ∧ (∃ q, tplTail = "\n        \x7d catch (error) \x7b" ++ q) := by
  refine ⟨rfl,
    ⟨"\n<!DOCTYPE html>\n<html lang=\"en\">\n<head>\n    <meta charset=\"UTF-8\">\n    <meta name=\"viewport\" content=\"width=device-width, initial-scale=1.0\">\n    <title>Preview</title>\n    ",
     "\n        body \x7b \n            margin: 0; \n            padding: 16px; \n            font-family: -apple-system, BlinkMacSystemFont, 'Segoe UI', Roboto, sans-serif;\n            background: white;\n            color: #333;\n        \x7d\n        ",
     rfl, rfl, rfl, rfl⟩,
    rfl, rfl, rfl,
    ⟨scriptOpen ++ originalConsoleDecl ++ sendToParentDecl,
     consoleErrorBlock ++ consoleWarnBlock ++ consoleInfoBlock
       ++ errorListenerBlock ++ tryOpen, rfl⟩,
    ⟨scriptOpen ++ originalConsoleDecl ++ sendToParentDecl ++ consoleLogBlock,
     consoleWarnBlock ++ consoleInfoBlock ++ errorListenerBlock ++ tryOpen, rfl⟩,
    ⟨scriptOpen ++ originalConsoleDecl ++ sendToParentDecl ++ consoleLogBlock
       ++ consoleErrorBlock,
     consoleInfoBlock ++ errorListenerBlock ++ tryOpen, rfl⟩,
    ⟨scriptOpen ++ originalConsoleDecl ++ sendToParentDecl ++ consoleLogBlock
       ++ consoleErrorBlock ++ consoleWarnBlock,
     errorListenerBlock ++ tryOpen, rfl⟩,
    ⟨"        console.log = (...args) => \x7b\n            ", "\n            ",
     ", args.map(arg => \n                typeof arg === 'object' ? JSON.stringify(arg, null, 2) : String(arg)\n            ).join(' '));\n        \x7d;\n        \n",
     rfl⟩,
    ⟨"        console.error = (...args) => \x7b\n            ", "\n            ",
     ", args.map(arg => \n                typeof arg === 'object' ? JSON.stringify(arg, null, 2) : String(arg)\n            ).join(' '));\n        \x7d;\n        \n",
     rfl⟩,
    ⟨"        console.warn = (...args) => \x7b\n            ", "\n            ",
     ", args.map(arg => \n                typeof arg === 'object' ? JSON.stringify(arg, null, 2) : String(arg)\n            ).join(' '));\n        \x7d;\n        \n",
     rfl⟩,
    ⟨"        console.info = (...args) => \x7b\n            ", "\n            ",
     ", args.map(arg => \n                typeof arg === 'object' ? JSON.stringify(arg, null, 2) : String(arg)\n            ).join(' '));\n        \x7d;\n        \n",
     rfl⟩,
    ⟨scriptOpen ++ originalConsoleDecl ++ sendToParentDecl ++ consoleLogBlock
       ++ consoleErrorBlock ++ consoleWarnBlock ++ consoleInfoBlock
       ++ errorListenerBlock, rfl⟩,
    rfl,
    ⟨"\n            sendToParent('error', error.message);\n        \x7d\n    </script>\n</body>\n</html>", rfl⟩⟩

/-- Claim C7: each of the four shadowed console methods, called once
with a single string argument, relays exactly one message whose level is
the method's name and whose message text is that string. -/
theorem claim_C7_level_round_trip (s ts : String) :
    consoleLogShadow [JSValue.str s] ts = [⟨"console", "log", JSValue.str s, ts⟩]
    ∧ consoleWarnShadow [JSValue.str s] ts = [⟨"console", "warn", JSValue.str s, ts⟩]
    ∧ consoleErrorShadow [JSValue.str s] ts = [⟨"console", "error", JSValue.str s, ts⟩]
    ∧ consoleInfoShadow [JSValue.str s] ts = [⟨"console", "info", JSValue.str s, ts⟩] :=
  ⟨rfl, rfl, rfl, rfl⟩

/-- Claim C8: a multi-argument console call relays exactly one message
whose text joins the per-argument stringifications with single spaces —
objects pretty-printed as two-space-indented JSON, primitives via their
natural string form; in particular `console.log("a", 1, \x7bx:1\x7d)`
produces the text `a 1 \x7b\n  "x": 1\n\x7d`. -/
theorem claim_C8_multi_argument_join :
    (∀ (args : List JSValue) (ts : String),
        consoleLogShadow args ts
          = [⟨"console", "log",
              JSValue.str (String.intercalate " " (args.map stringifyArg)), ts⟩])
    ∧ joinArgs [JSValue.str "a", JSValue.num 1, JSValue.obj [("x", JSValue.num 1)]]
        = "a 1 \x7b\n  \"x\": 1\n\x7d" :=
  ⟨fun _ _ => rfl, rfl⟩

/-- Claim C9: the guarded block catches the synchronous
`throw new Error("boom")` and relays exactly one error-level message
whose text contains "boom"; the composed document still carries the
user's CSS and HTML unchanged, so the markup renders regardless of the
throwing script. -/
theorem claim_C9_uncaught_error_capture (ts h c : String) :
    (∃ m : RelayMessage,
        runGuarded (ScriptOutcome.thrown [] (newError "boom")) ts = [m]
        ∧ m.level = "error" ∧ m.type = "console"
        ∧ ∃ txt, m.message = JSValue.str txt ∧ strHas txt "boom" = true)
    ∧ (∃ p q r, generatePreviewContent h c "throw new Error(\"boom\")"
        = p ++ c ++ q ++ h ++ r) := by
  constructor
  · exact ⟨⟨"console", "error", JSValue.str "boom", ts⟩, rfl, rfl, rfl,
      "boom", rfl, rfl⟩
  · refine ⟨tplHead, tplAfterCss,
      tplAfterHtml ++ "throw new Error(\"boom\")" ++ tplTail, ?_⟩
    simp [generatePreviewContent, String.append_assoc]

/-- Claim C10: when the user's script throws the plain string "boom",
the catch block forwards `error.message`, which on a string value is
`undefined` — so the relayed error payload's message field is
`undefined`, not a string, and its display form does not contain the
thrown text. -/
theorem claim_C10_non_error_throw (ts : String) :
    runGuarded (ScriptOutcome.thrown [] (JSValue.str "boom")) ts
        = [⟨"console", "error", JSValue.undefined, ts⟩]
    ∧ (∀ s : String, (JSValue.undefined : JSValue) ≠ JSValue.str s)
    ∧ strHas (jsStringOf JSValue.undefined) "boom" = false :=
  ⟨rfl, fun _ h => JSValue.noConfusion h, rfl⟩

end Polyglot
